import Mathlib

/-
Shallow embedding of the scan-operation engine in sdcm/scan_operation_thread.py:
the statistics data model, the paged result handler and its page budget, the
random query builder for partition scans, failure-severity classification, and
the partition-scan run that validates a reversed query against a normal one.
Machine-independent values (durations, row counts) are modelled as Nat; fallible
steps (opening a CQL session, executing a query) are modelled as Except values.
-/

set_option autoImplicit false

/-- Severity levels of the event bus (sdcm.sct_events.Severity), restricted to
the values this module assigns. -/
inductive Severity where
  | NORMAL
  | WARNING
  | ERROR
deriving DecidableEq

/-- ERROR_SUBSTRINGS from scan_operation_thread.py line 28, in source order.
Note the last entry keeps its capital H exactly as in the source. -/
def ERROR_SUBSTRINGS : List String :=
  ["timed out", "unpack requires", "timeout", "Host has been marked down or removed"]

/-- Whether the pattern list is a prefix of the haystack character list,
mirroring the start of a Python substring check. -/
def prefixMatch : List Char → List Char → Bool
  | [], _ => true
  | _ :: _, [] => false
  | a :: as, b :: bs => a == b && prefixMatch as bs

/-- Whether the needle occurs as a contiguous substring of the haystack,
mirroring the Python expression needle in haystack. -/
def subMatch (needle : List Char) : List Char → Bool
  | [] => prefixMatch needle []
  | b :: bs => prefixMatch needle (b :: bs) || subMatch needle bs

/-- Python str.lower, mapping every character to lower case. -/
def strLower (s : String) : String := ⟨s.data.map Char.toLower⟩

/-- Python needle in haystack on strings. -/
def strContainsSub (hay needle : String) : Bool := subMatch needle.data hay.data

/-- The severity assigned to a failed scan in run_scan_event (lines 301-304):
WARNING when a nemesis is running on the target node or when one of the
ERROR_SUBSTRINGS occurs in the lower-cased exception message, ERROR otherwise.
The substrings themselves are checked verbatim against the lower-cased message,
exactly as in the source. -/
def classifySeverity (runningNemesis : Option String) (msg : String) : Severity :=
  if runningNemesis.isSome || ERROR_SUBSTRINGS.any (fun s => strContainsSub (strLower msg) s) then
    Severity.WARNING
  else
    Severity.ERROR

/-- FullScanOperationStat (lines 98-109): stats of a single fullscan operation.
Fields defaulting to None in Python are Options here. For the per-event records
produced by run_scan_event the exceptions list holds strings (repr of each
caught exception). -/
structure FullScanOperationStat where
  op_type : String := ""
  duration : Option Nat := none
  exceptions : List String := []
  nemesis_at_start : Option String := none
  nemesis_at_end : Option String := none
  success : Option Bool := none
  cmd : String := ""
deriving DecidableEq

/-- The combined per-operation record built by
FullPartitionScanOperation.run_scan_operation (lines 550-574). It is the same
Python class as FullScanOperationStat, but its exceptions list receives whole
lists via list.append (lines 569-570), so its error entries are lists of
strings. -/
structure CombinedOpStat where
  op_type : String := ""
  duration : Option Nat := none
  exceptions : List (List String) := []
  nemesis_at_start : Option String := none
  nemesis_at_end : Option String := none
  success : Option Bool := none
  cmd : String := ""
deriving DecidableEq

/-- FullScanStats (lines 75-85): shared mutable stats of a scan lineage.
read_pages is the page budget drawn before each operation
(_run_next_scan_operation line 186) and read by the page handler. -/
structure FullScanStats where
  number_of_rows_read : Nat := 0
  read_pages : Nat := 0
  scans_counter : Nat := 0
  time_elapsed : Nat := 0
  total_scan_time : Nat := 0
  stats : List FullScanOperationStat := []
deriving DecidableEq

/-- A result row with the partition key, clustering key and data column already
rendered as strings (the handler only ever calls str on the attributes). -/
structure Row where
  pk : String
  ck : String
  v : String
deriving DecidableEq

/-- PagedResultHandler._row_to_string (lines 665-670): concatenation of the
partition key, the clustering key, optionally the data column, plus a trailing
newline. -/
def rowToString (includeDataColumn : Bool) (r : Row) : String :=
  r.pk ++ r.ck ++ (if includeDataColumn then r.v else "") ++ "\n"

/-- The event classes a scan operation can report with. The aggregate event is
not modelled: FullScanAggregatesOperation handles its timeouts inside its own
execute_query and is not referred to by any modelled path. -/
inductive ScanEventKind where
  | fullScan
  | fullPartition
  | fullPartitionReversedOrder
deriving DecidableEq

/-- The mutable state of a FullPartitionScanOperation instance that the
modelled paths touch: the shared FullScanStats, the two temporary output files
(as lists of written lines), and self.limit as set by the query builder. -/
structure PartitionOpState where
  fullscan_stats : FullScanStats := {}
  normal_query_output : List String := []
  reversed_query_output : List String := []
  limit : Option Nat := none
deriving DecidableEq

/-- The fresh state of an operation instance. -/
def initPartitionState : PartitionOpState := {}

/-- The mutable fields of a PagedResultHandler (lines 653-660), plus
fetchRequests, a counter of start_fetching_next_page calls used to state the
page-budget claims. -/
structure HandlerState where
  maxReadPages : Nat := 0
  currentReadPages : Nat := 0
  finishedEvent : Bool := false
  fetchRequests : Nat := 0
deriving DecidableEq

/-- The effect of one page of rows on the operation state, from the body of
PagedResultHandler.handle_page (lines 672-683): for a FullPartitionScanEvent
every row is written to the normal-query output; for a
FullPartitionScanReversedOrderEvent number_of_rows_read grows by the row count
and, when data validation is on, every row is written to the reversed-query
output. -/
def pageRowsEffect (kind : ScanEventKind) (validate includeDataColumn : Bool)
    (st : PartitionOpState) (rows : List Row) : PartitionOpState :=
  match kind with
  | .fullScan => st
  | .fullPartition =>
      { st with normal_query_output :=
          st.normal_query_output ++ rows.map (rowToString includeDataColumn) }
  | .fullPartitionReversedOrder =>
      { st with
        fullscan_stats := { st.fullscan_stats with
          number_of_rows_read := st.fullscan_stats.number_of_rows_read + rows.length },
        reversed_query_output := st.reversed_query_output ++
          (if validate then rows.map (rowToString includeDataColumn) else []) }

/-- The handler-state update performed when handle_page requests the next page
(lines 686-689): start_fetching_next_page is counted in fetchRequests, and
current_read_pages is incremented only when max_read_pages is positive
(line 688). -/
def nextHandlerState (h : HandlerState) : HandlerState :=
  { h with
    fetchRequests := h.fetchRequests + 1,
    currentReadPages :=
      if 0 < h.maxReadPages then h.currentReadPages + 1 else h.currentReadPages }

/-- PagedResultHandler.handle_page (lines 672-691): apply the page effect, then
either request the next page (when more pages remain and current_read_pages is
at most max_read_pages) or set the finished event. The returned Bool tells
whether the next page was requested. -/
def handle_page (kind : ScanEventKind) (validate includeDataColumn : Bool)
    (st : PartitionOpState) (h : HandlerState) (rows : List Row) (hasMorePages : Bool) :
    PartitionOpState × HandlerState × Bool :=
  let st1 := pageRowsEffect kind validate includeDataColumn st rows
  if hasMorePages && decide (h.currentReadPages ≤ h.maxReadPages) then
    (st1, nextHandlerState h, true)
  else
    (st1, { h with finishedEvent := true }, false)

/-- The page-delivery loop of one asynchronous execution: the driver delivers
the pages of the result set one by one to handle_page; a further callback
arrives only when handle_page requested the next page, and hasMorePages is
true exactly while undelivered pages remain. -/
def drivePages (kind : ScanEventKind) (validate includeDataColumn : Bool) :
    PartitionOpState → HandlerState → List (List Row) → PartitionOpState × HandlerState
  | st, h, [] => (st, h)
  | st, h, page :: rest =>
      match handle_page kind validate includeDataColumn st h page (!rest.isEmpty) with
      | (st1, h1, true) => drivePages kind validate includeDataColumn st1 h1 rest
      | (st1, h1, false) => (st1, h1)

/-- The reset performed at the start of
FullPartitionScanOperation.fetch_result_pages (line 473):
self.fullscan_stats.number_of_rows_read = 0. -/
def resetRowsRead (st : PartitionOpState) : PartitionOpState :=
  { st with fullscan_stats := { st.fullscan_stats with number_of_rows_read := 0 } }

/-- FullPartitionScanOperation.fetch_result_pages (lines 471-480):
number_of_rows_read is reset to zero, a fresh PagedResultHandler is created
with max_read_pages taken from fullscan_stats.read_pages (line 657), and the
pages are consumed until the finished event. -/
def fetch_result_pages (kind : ScanEventKind) (validate includeDataColumn : Bool)
    (st : PartitionOpState) (pages : List (List Row)) : PartitionOpState × HandlerState :=
  drivePages kind validate includeDataColumn (resetRowsRead st)
    { maxReadPages := st.fullscan_stats.read_pages,
      currentReadPages := 0, finishedEvent := false, fetchRequests := 0 } pages

/-- FullscanOperationBase.fetch_result_pages (lines 322-327): the base-class
loop only spins on a local counter and leaves the shared stats untouched. -/
def fetch_result_pages_plain (st : PartitionOpState) (_pages : List (List Row)) :
    PartitionOpState := st

/-- The fetch step used by run_scan_event for each event kind: the base-class
loop for a full table scan, the handler-driven loop for the partition events. -/
def applyFetch (kind : ScanEventKind) (validate includeDataColumn : Bool)
    (st : PartitionOpState) (pages : List (List Row)) : PartitionOpState :=
  match kind with
  | .fullScan => fetch_result_pages_plain st pages
  | .fullPartition => (fetch_result_pages kind validate includeDataColumn st pages).1
  | .fullPartitionReversedOrder =>
      (fetch_result_pages kind validate includeDataColumn st pages).1

/-- The Python class name recorded as op_type of the per-event record. -/
def eventTypeName : ScanEventKind → String
  | .fullScan => "FullScanEvent"
  | .fullPartition => "FullPartitionScanEvent"
  | .fullPartitionReversedOrder => "FullPartitionScanReversedOrderEvent"

/-- The finally block of run_scan_event (lines 305-314): add the duration to
time_elapsed, bump scans_counter, finalize the operation record with
nemesis_at_end, its duration and success = (no exceptions recorded), append
the record to the stats log and return it. -/
def finalizeScanEvent (stat0 : FullScanOperationStat) (excs : List String)
    (runningNemesis : Option String) (duration : Nat) (st1 : PartitionOpState) :
    FullScanOperationStat × PartitionOpState :=
  let s1 := { st1.fullscan_stats with
              time_elapsed := st1.fullscan_stats.time_elapsed + duration,
              scans_counter := st1.fullscan_stats.scans_counter + 1 }
  let stat := { stat0 with
                duration := some duration,
                nemesis_at_end := runningNemesis,
                exceptions := excs,
                success := some excs.isEmpty }
  (stat, { st1 with fullscan_stats := { s1 with stats := s1.stats ++ [stat] } })

/-- FullscanOperationBase.run_scan_event (lines 265-314). conn models entering
cql_connection_patient: when it fails the exception escapes run_scan_event
before the try block is entered and nothing is recorded. future models the
query execution together with page delivery: an error is the exception caught
by the except branch (lines 293-304), which records it in the operation stat
and classifies the event severity; on success the pages are consumed by
fetch_result_pages. Either way the finally block runs and its record is
returned. -/
def run_scan_event (kind : ScanEventKind) (validate includeDataColumn : Bool)
    (conn : Except String Unit) (future : Except String (List (List Row)))
    (runningNemesis : Option String) (duration : Nat) (cmd : String)
    (st : PartitionOpState) :
    Except String (FullScanOperationStat × Option Severity × PartitionOpState) :=
  match conn with
  | .error e => Except.error e
  | .ok _ =>
      let stat0 : FullScanOperationStat :=
        { op_type := eventTypeName kind, nemesis_at_start := runningNemesis, cmd := cmd }
      match future with
      | .ok pages =>
          let r := finalizeScanEvent stat0 [] runningNemesis duration
            (applyFetch kind validate includeDataColumn st pages)
          Except.ok (r.1, none, r.2)
      | .error e =>
          let r := finalizeScanEvent stat0 [e] runningNemesis duration st
          Except.ok (r.1, some (classifySeverity runningNemesis e), r.2)

/-- The shell step tac file: reverse the order of the lines. -/
def tacLines (l : List String) : List String := l.reverse

/-- The shell step head -n: keep the first n lines. -/
def headLines (n : Nat) (l : List String) : List String := l.take n

/-- The reordered normal-query output built by _compare_output_files
(lines 504-515): tac over the normal-query output, piped through
head -n limit only when a LIMIT was added to the reversed query. -/
def reorderedNormalLines (limit : Option Nat) (normalLines : List String) : List String :=
  match limit with
  | some n => headLines n (tacLines normalLines)
  | none => tacLines normalLines

/-- Modelled from the spec: the verdict of running
diff -y --suppress-common-lines over the two files through the local command
runner (sdcm.remote, not under src/) read as a boolean. Per the spec the
comparison is equal iff every line matches positionally, i.e. iff the two line
sequences are identical, which is exactly when diff prints nothing
(lines 517-526). -/
def diffReportsEqual (a b : List String) : Bool := a == b

/-- FullPartitionScanOperation._compare_output_files (lines 499-539) as a pure
function of the two output-file contents and self.limit: reorder the
normal-query lines (tac, then head -n limit when a LIMIT was used) and compare
them against the reversed-query lines. -/
def compare_output_files (limit : Option Nat) (normalLines reversedLines : List String) :
    Bool :=
  diffReportsEqual (reorderedNormalLines limit normalLines) reversedLines

/-- _compare_output_files acting on the operation state: computes the verdict
and resets both output files (reset_output_files, lines 491-497 and 538). -/
def compare_output_files_state (st : PartitionOpState) : Bool × PartitionOpState :=
  (compare_output_files st.limit st.normal_query_output st.reversed_query_output,
   { st with normal_query_output := [], reversed_query_output := [] })

/-- The four clustering-key filter variants of
FullPartitionScanOperation.reversed_query_filter_ck_by (lines 356-357). -/
inductive CkFilter where
  | lt
  | gt
  | lt_and_gt
  | no_filter
deriving DecidableEq

/-- The parameters of query construction taken from FullScanParams. -/
structure BuilderParams where
  ks_cf : String
  pk_name : String
  ck_name : String
  data_column_name : String
  include_data_column : Bool
  rows_count : Nat
deriving DecidableEq

/-- The values randomly_form_cql_statement draws from self.generator, the
seeded random source (lines 404-409 and 456): the two clustering-key bounds,
the filter variant, the chosen partition key and the bypass-cache choice. -/
structure SeededDraws where
  ckMin : Nat
  ckMax : Nat
  ckFilter : CkFilter
  partitionKey : Nat
  bypassCache : Bool
deriving DecidableEq

/-- The values randomly_form_cql_statement draws from the module-level random
source, NOT from the seeded generator (lines 458-459): whether to add a LIMIT,
and its value. -/
structure GlobalRandomDraws where
  addLimit : Bool
  limitValue : Nat
deriving DecidableEq

/-- The filter clause per variant (reversed_query_filter_ck_by formatted at
lines 426-454): lt_and_gt uses the max bound for the < part and the min bound
for the > part; gt and lt both use the min bound, as in the source. -/
def ckFilterClause (ckName : String) (ckMin ckMax : Nat) : CkFilter → String
  | .lt_and_gt =>
      " and " ++ ckName ++ " < " ++ toString ckMax ++ " and " ++ ckName ++ " > " ++ toString ckMin
  | .gt => " and " ++ ckName ++ " > " ++ toString ckMin
  | .lt => " and " ++ ckName ++ " < " ++ toString ckMin
  | .no_filter => ""

/-- BYPASS_CACHE_VALUES (line 29): the drawn element, true picking the first. -/
def bypassCacheValue : Bool → String
  | true => " BYPASS CACHE"
  | false => ""

/-- The direction used for the reversed query: desc if the table clustering
order lower-cases to asc, else asc (line 362). -/
def reversedOrderOf (tableClusteringOrder : String) : String :=
  if strLower tableClusteringOrder == "asc" then "desc" else "asc"

/-- self.reversed_order as fixed in FullPartitionScanOperation.__init__
(lines 361-362): computed from self.table_clustering_order while it still holds
its initial empty-string value, hence always asc. -/
def initialReversedOrder : String := reversedOrderOf ""

/-- FullPartitionScanOperation.randomly_form_cql_statement (lines 389-469) as a
function of the parameters, the ORDER BY direction in use, the partition keys
found for the table, the seeded draws and the module-level random draws.
Returns none when no partition keys exist, else the normal query, the reversed
query and the LIMIT stored in self.limit. The normal query is frozen before
the LIMIT is drawn (line 457), so only the reversed query carries the limit;
both share the same select columns, partition-key predicate and filter
clause. -/
def randomly_form_cql_statement (p : BuilderParams) (reversedOrder : String)
    (partitionKeys : List Nat) (s : SeededDraws) (g : GlobalRandomDraws) :
    Option (String × String × Option Nat) :=
  if partitionKeys.isEmpty then none
  else
    let selectedColumns :=
      p.pk_name ++ "," ++ p.ck_name ++
        (if p.include_data_column then "," ++ p.data_column_name else "")
    let whereQuery :=
      "select " ++ selectedColumns ++ " from " ++ p.ks_cf ++
        " where " ++ p.pk_name ++ " = " ++ toString s.partitionKey ++
        ckFilterClause p.ck_name s.ckMin s.ckMax s.ckFilter
    let querySuffix := " " ++ bypassCacheValue s.bypassCache
    let normalQuery := whereQuery ++ querySuffix
    let limitAndSuffix :=
      if g.addLimit then (some g.limitValue, " limit " ++ toString g.limitValue ++ querySuffix)
      else ((none : Option Nat), querySuffix)
    let reversedQuery :=
      whereQuery ++ " order by " ++ p.ck_name ++ " " ++ reversedOrder ++ limitAndSuffix.2
    some (normalQuery, reversedQuery, limitAndSuffix.1)

/-- The query construction as performed during run_scan_operation (line 542
fetches the table clustering order into self.table_clustering_order, but
self.reversed_order stays as computed in __init__ from the initial empty
string and is never recomputed, so the fetched order is ignored by the
builder). -/
def run_scan_operation_build (p : BuilderParams) (_tableClusteringOrder : String)
    (partitionKeys : List Nat) (s : SeededDraws) (g : GlobalRandomDraws) :
    Option (String × String × Option Nat) :=
  randomly_form_cql_statement p initialReversedOrder partitionKeys s g

/-- Recording of self.limit as set by randomly_form_cql_statement
(lines 418 and 459) on the operation instance for use by
_compare_output_files. -/
def setLimit (lim : Option Nat) (st : PartitionOpState) : PartitionOpState :=
  { st with limit := lim }

/-- FullPartitionScanOperation.run_scan_operation (lines 541-574). queries is
the result of the builder (none aborts the run, line 545-546). The reversed
query runs as a FullPartitionScanReversedOrderEvent; when data validation is
enabled the normal query then runs as a FullPartitionScanEvent, the two output
files are compared and the combined record is finalized: its exceptions list
receives the two per-event exception LISTS via append (lines 569-570), and
success is set iff the comparison succeeded and that two-element list is
falsy. The combined record is returned for observation; the Python keeps it in
a local variable and never appends it to the stats log. -/
def run_scan_operation_partition (validate includeDataColumn : Bool)
    (queries : Option (String × String × Option Nat))
    (connRev : Except String Unit) (futureRev : Except String (List (List Row)))
    (connNorm : Except String Unit) (futureNorm : Except String (List (List Row)))
    (runningNemesis : Option String) (durRev durNorm : Nat)
    (st : PartitionOpState) :
    Except String (PartitionOpState × Option CombinedOpStat) :=
  match queries with
  | none => Except.ok (st, none)
  | some (normalQuery, reversedQuery, lim) =>
      let combined0 : CombinedOpStat :=
        { op_type := "FullPartitionScanOperation",
          nemesis_at_start := runningNemesis,
          cmd := "(" ++ normalQuery ++ ", " ++ reversedQuery ++ ")" }
      match run_scan_event .fullPartitionReversedOrder validate includeDataColumn
          connRev futureRev runningNemesis durRev reversedQuery (setLimit lim st) with
      | .error e => Except.error e
      | .ok (revStat, _, st1) =>
          if validate then
            match run_scan_event .fullPartition validate includeDataColumn
                connNorm futureNorm runningNemesis durNorm normalQuery st1 with
            | .error e => Except.error e
            | .ok (regStat, _, st2) =>
                let cmpRes := compare_output_files_state st2
                let excs := [regStat.exceptions, revStat.exceptions]
                Except.ok (cmpRes.2, some { combined0 with
                  nemesis_at_end := runningNemesis,
                  exceptions := excs,
                  success := some (cmpRes.1 && excs.isEmpty) })
          else Except.ok (st1, some combined0)

/-- Projection: the combined record of a partition-scan run, when the run
returned at all. -/
def combinedStatOf (r : Except String (PartitionOpState × Option CombinedOpStat)) :
    Option CombinedOpStat :=
  match r with
  | .ok (_, c) => c
  | .error _ => none

/-- Projection: the stats log after a partition-scan run. -/
def statsLogOf (r : Except String (PartitionOpState × Option CombinedOpStat)) :
    Option (List FullScanOperationStat) :=
  match r with
  | .ok (stFinal, _) => some stFinal.fullscan_stats.stats
  | .error _ => none

/-- Projection: the event severity assigned by run_scan_event, when it
returned at all. -/
def severityOf
    (r : Except String (FullScanOperationStat × Option Severity × PartitionOpState)) :
    Option Severity :=
  match r with
  | .ok (_, sev, _) => sev
  | .error _ => none

/-- A sample row used by concrete evaluations. -/
def rowA : Row := { pk := "1", ck := "1", v := "a" }

/-- A sample row used by concrete evaluations. -/
def rowB : Row := { pk := "1", ck := "2", v := "x" }

/-- A sample row used by concrete evaluations. -/
def rowC : Row := { pk := "9", ck := "4", v := "y" }

/-- Builder parameters used by concrete evaluations. -/
def exampleParams : BuilderParams :=
  { ks_cf := "ks.t1", pk_name := "pk", ck_name := "ck",
    data_column_name := "v", include_data_column := false, rows_count := 20 }

/-- Seeded draws used by concrete evaluations. -/
def exampleSeeded : SeededDraws :=
  { ckMin := 3, ckMax := 7, ckFilter := .no_filter, partitionKey := 5, bypassCache := false }

/-! Helper lemmas about the paged result handler and the scan-event body. -/

/-- A page effect never touches the cumulative counters or the stats log. -/
theorem pageRowsEffect_stats_fields (kind : ScanEventKind) (validate includeDataColumn : Bool)
    (st : PartitionOpState) (rows : List Row) :
    (pageRowsEffect kind validate includeDataColumn st rows).fullscan_stats.scans_counter
        = st.fullscan_stats.scans_counter
    ∧ (pageRowsEffect kind validate includeDataColumn st rows).fullscan_stats.time_elapsed
        = st.fullscan_stats.time_elapsed
    ∧ (pageRowsEffect kind validate includeDataColumn st rows).fullscan_stats.stats
        = st.fullscan_stats.stats := by
  cases kind <;> simp [pageRowsEffect]

/-- Driving the page loop never touches the cumulative counters or the stats
log. -/
theorem drivePages_stats_fields (kind : ScanEventKind) (validate includeDataColumn : Bool) :
    ∀ (pages : List (List Row)) (st : PartitionOpState) (h : HandlerState),
      (drivePages kind validate includeDataColumn st h pages).1.fullscan_stats.scans_counter
          = st.fullscan_stats.scans_counter
      ∧ (drivePages kind validate includeDataColumn st h pages).1.fullscan_stats.time_elapsed
          = st.fullscan_stats.time_elapsed
      ∧ (drivePages kind validate includeDataColumn st h pages).1.fullscan_stats.stats
          = st.fullscan_stats.stats := by
  intro pages
  induction pages with
  | nil => intro st h; simp [drivePages]
  | cons page rest ih =>
      intro st h
      obtain ⟨hp1, hp2, hp3⟩ := pageRowsEffect_stats_fields kind validate includeDataColumn st page
      by_cases hc : (!rest.isEmpty && decide (h.currentReadPages ≤ h.maxReadPages)) = true
      · have hstep : drivePages kind validate includeDataColumn st h (page :: rest)
            = drivePages kind validate includeDataColumn
                (pageRowsEffect kind validate includeDataColumn st page) (nextHandlerState h) rest := by
          simp [drivePages, handle_page, hc]
        obtain ⟨i1, i2, i3⟩ :=
          ih (pageRowsEffect kind validate includeDataColumn st page) (nextHandlerState h)
        rw [hstep]
        exact ⟨i1.trans hp1, i2.trans hp2, i3.trans hp3⟩
      · have hstep : drivePages kind validate includeDataColumn st h (page :: rest)
            = (pageRowsEffect kind validate includeDataColumn st page,
               { h with finishedEvent := true }) := by
          simp [drivePages, handle_page, hc]
        rw [hstep]
        exact ⟨hp1, hp2, hp3⟩

/-- Fetching result pages never touches the cumulative counters or the stats
log (it only resets number_of_rows_read and fills the output sinks). -/
theorem fetch_result_pages_stats_fields (kind : ScanEventKind) (validate includeDataColumn : Bool)
    (st : PartitionOpState) (pages : List (List Row)) :
    (fetch_result_pages kind validate includeDataColumn st pages).1.fullscan_stats.scans_counter
        = st.fullscan_stats.scans_counter
    ∧ (fetch_result_pages kind validate includeDataColumn st pages).1.fullscan_stats.time_elapsed
        = st.fullscan_stats.time_elapsed
    ∧ (fetch_result_pages kind validate includeDataColumn st pages).1.fullscan_stats.stats
        = st.fullscan_stats.stats := by
  obtain ⟨i1, i2, i3⟩ := drivePages_stats_fields kind validate includeDataColumn pages
    (resetRowsRead st)
    { maxReadPages := st.fullscan_stats.read_pages,
      currentReadPages := 0, finishedEvent := false, fetchRequests := 0 }
  refine ⟨?_, ?_, ?_⟩ <;> simp only [fetch_result_pages]
  · rw [i1]; simp [resetRowsRead]
  · rw [i2]; simp [resetRowsRead]
  · rw [i3]; simp [resetRowsRead]

/-- The fetch step of run_scan_event never touches the cumulative counters or
the stats log. -/
theorem applyFetch_stats_fields (kind : ScanEventKind) (validate includeDataColumn : Bool)
    (st : PartitionOpState) (pages : List (List Row)) :
    (applyFetch kind validate includeDataColumn st pages).fullscan_stats.scans_counter
        = st.fullscan_stats.scans_counter
    ∧ (applyFetch kind validate includeDataColumn st pages).fullscan_stats.time_elapsed
        = st.fullscan_stats.time_elapsed
    ∧ (applyFetch kind validate includeDataColumn st pages).fullscan_stats.stats
        = st.fullscan_stats.stats := by
  cases kind
  · exact ⟨rfl, rfl, rfl⟩
  · exact fetch_result_pages_stats_fields _ validate includeDataColumn st pages
  · exact fetch_result_pages_stats_fields _ validate includeDataColumn st pages

/-- What the finally block does to the record and the state. -/
theorem finalizeScanEvent_spec (stat0 : FullScanOperationStat) (excs : List String)
    (runningNemesis : Option String) (duration : Nat) (st1 : PartitionOpState) :
    (finalizeScanEvent stat0 excs runningNemesis duration st1).2.fullscan_stats.stats
        = st1.fullscan_stats.stats ++ [(finalizeScanEvent stat0 excs runningNemesis duration st1).1]
    ∧ (finalizeScanEvent stat0 excs runningNemesis duration st1).2.fullscan_stats.scans_counter
        = st1.fullscan_stats.scans_counter + 1
    ∧ (finalizeScanEvent stat0 excs runningNemesis duration st1).2.fullscan_stats.time_elapsed
        = st1.fullscan_stats.time_elapsed + duration
    ∧ (finalizeScanEvent stat0 excs runningNemesis duration st1).1.duration = some duration
    ∧ (finalizeScanEvent stat0 excs runningNemesis duration st1).1.success
        = some (finalizeScanEvent stat0 excs runningNemesis duration st1).1.exceptions.isEmpty
    ∧ (finalizeScanEvent stat0 excs runningNemesis duration st1).1.exceptions = excs := by
  simp [finalizeScanEvent]

/-- Once the CQL session is open, run_scan_event always returns a record,
appends exactly that record to the stats log, bumps the cumulative counters,
and finalizes the record from the recorded exceptions. -/
theorem run_scan_event_ok (kind : ScanEventKind) (validate includeDataColumn : Bool)
    (future : Except String (List (List Row))) (runningNemesis : Option String)
    (duration : Nat) (cmd : String) (st : PartitionOpState) :
    ∃ stat sev st1,
      run_scan_event kind validate includeDataColumn (Except.ok ()) future
          runningNemesis duration cmd st
        = Except.ok (stat, sev, st1)
      ∧ st1.fullscan_stats.stats = st.fullscan_stats.stats ++ [stat]
      ∧ st1.fullscan_stats.scans_counter = st.fullscan_stats.scans_counter + 1
      ∧ st1.fullscan_stats.time_elapsed = st.fullscan_stats.time_elapsed + duration
      ∧ stat.duration = some duration
      ∧ stat.success = some stat.exceptions.isEmpty
      ∧ stat.exceptions = (match future with | Except.ok _ => [] | Except.error e => [e]) := by
  cases future with
  | ok pages =>
      obtain ⟨a1, a2, a3⟩ := applyFetch_stats_fields kind validate includeDataColumn st pages
      obtain ⟨f1, f2, f3, f4, f5, f6⟩ := finalizeScanEvent_spec
        { op_type := eventTypeName kind, nemesis_at_start := runningNemesis, cmd := cmd }
        [] runningNemesis duration (applyFetch kind validate includeDataColumn st pages)
      refine ⟨_, _, _, rfl, ?_, ?_, ?_, f4, f5, by simpa using f6⟩
      · rw [f1, a3]
      · rw [f2, a1]
      · rw [f3, a2]
  | error e =>
      obtain ⟨f1, f2, f3, f4, f5, f6⟩ := finalizeScanEvent_spec
        { op_type := eventTypeName kind, nemesis_at_start := runningNemesis, cmd := cmd }
        [e] runningNemesis duration st
      exact ⟨_, _, _, rfl, f1, f2, f3, f4, f5, by simpa using f6⟩

/-- With max_read_pages = 0 the budget check current_read_pages <= max always
passes (the counter is never incremented, line 688), so the handler keeps
requesting pages until none remain: every delivered page is consumed, one
fetch request is made per remaining page, and number_of_rows_read grows by
every row of every page. -/
theorem drivePages_budget_zero (validate includeDataColumn : Bool) :
    ∀ (pages : List (List Row)) (st : PartitionOpState) (h : HandlerState),
      h.maxReadPages = 0 → h.currentReadPages = 0 → pages ≠ [] →
      (drivePages .fullPartitionReversedOrder validate includeDataColumn st h pages).2.finishedEvent = true
      ∧ (drivePages .fullPartitionReversedOrder validate includeDataColumn st h pages).2.fetchRequests
          = h.fetchRequests + (pages.length - 1)
      ∧ (drivePages .fullPartitionReversedOrder validate includeDataColumn st h pages).1.fullscan_stats.number_of_rows_read
          = st.fullscan_stats.number_of_rows_read + (pages.map List.length).sum := by
  intro pages
  induction pages with
  | nil => intro st h _ _ hne; exact absurd rfl hne
  | cons page rest ih =>
      intro st h hmax hcur _
      by_cases hrest : rest = []
      · subst hrest
        have hstep : drivePages .fullPartitionReversedOrder validate includeDataColumn st h [page]
            = (pageRowsEffect .fullPartitionReversedOrder validate includeDataColumn st page,
               { h with finishedEvent := true }) := by
          simp [drivePages, handle_page]
        rw [hstep]
        refine ⟨rfl, by simp, ?_⟩
        simp [pageRowsEffect]
      · have hlen : 0 < rest.length := List.length_pos.mpr hrest
        have hc : (!rest.isEmpty && decide (h.currentReadPages ≤ h.maxReadPages)) = true := by
          cases rest with
          | nil => exact absurd rfl hrest
          | cons q rs => simp [hcur]
        have hstep : drivePages .fullPartitionReversedOrder validate includeDataColumn st h (page :: rest)
            = drivePages .fullPartitionReversedOrder validate includeDataColumn
                (pageRowsEffect .fullPartitionReversedOrder validate includeDataColumn st page)
                (nextHandlerState h) rest := by
          simp [drivePages, handle_page, hc]
        obtain ⟨i1, i2, i3⟩ :=
          ih (pageRowsEffect .fullPartitionReversedOrder validate includeDataColumn st page)
            (nextHandlerState h)
            (by simp [nextHandlerState, hmax])
            (by simp [nextHandlerState, hmax, hcur])
            hrest
        rw [hstep]
        refine ⟨i1, ?_, ?_⟩
        · rw [i2]; simp only [nextHandlerState, List.length_cons]; omega
        · rw [i3]; simp only [pageRowsEffect, List.map_cons, List.sum_cons]; omega

/-- The invariant of the budget check for a positive budget: the fetch-request
count equals current_read_pages (both grow together, line 689), and the loop
only requests a page while current_read_pages is at most the budget, so the
count never exceeds budget + 1. -/
theorem drivePages_fetch_bound (kind : ScanEventKind) (validate includeDataColumn : Bool) :
    ∀ (pages : List (List Row)) (st : PartitionOpState) (h : HandlerState),
      0 < h.maxReadPages →
      h.fetchRequests = h.currentReadPages →
      h.currentReadPages ≤ h.maxReadPages + 1 →
      (drivePages kind validate includeDataColumn st h pages).2.fetchRequests ≤ h.maxReadPages + 1 := by
  intro pages
  induction pages with
  | nil => intro st h _ hinv hle; simpa [drivePages, hinv] using hle
  | cons page rest ih =>
      intro st h hpos hinv hle
      by_cases hc : (!rest.isEmpty && decide (h.currentReadPages ≤ h.maxReadPages)) = true
      · have hcur : h.currentReadPages ≤ h.maxReadPages := by
          have := hc
          simp only [Bool.and_eq_true, decide_eq_true_eq] at this
          exact this.2
        have hstep : drivePages kind validate includeDataColumn st h (page :: rest)
            = drivePages kind validate includeDataColumn
                (pageRowsEffect kind validate includeDataColumn st page)
                (nextHandlerState h) rest := by
          simp [drivePages, handle_page, hc]
        rw [hstep]
        have hmax : (nextHandlerState h).maxReadPages = h.maxReadPages := rfl
        have := ih (pageRowsEffect kind validate includeDataColumn st page) (nextHandlerState h)
          (by rw [hmax]; exact hpos)
          (by simp [nextHandlerState, hpos, hinv])
          (by simp [nextHandlerState, hpos]; omega)
        rw [hmax] at this
        exact this
      · have hstep : drivePages kind validate includeDataColumn st h (page :: rest)
            = (pageRowsEffect kind validate includeDataColumn st page,
               { h with finishedEvent := true }) := by
          simp [drivePages, handle_page, hc]
        rw [hstep]
        simpa [hinv] using hle

/-- fetch_result_pages with a positive page budget issues at most budget + 1
fetch-next-page requests. -/
theorem fetch_result_pages_fetch_bound (kind : ScanEventKind) (validate includeDataColumn : Bool)
    (st : PartitionOpState) (pages : List (List Row))
    (hpos : 0 < st.fullscan_stats.read_pages) :
    (fetch_result_pages kind validate includeDataColumn st pages).2.fetchRequests
      ≤ st.fullscan_stats.read_pages + 1 := by
  exact drivePages_fetch_bound kind validate includeDataColumn pages (resetRowsRead st)
    { maxReadPages := st.fullscan_stats.read_pages,
      currentReadPages := 0, finishedEvent := false, fetchRequests := 0 }
    hpos rfl (by simp)

/-- fetch_result_pages with page budget 0 consumes every delivered page:
completion is signalled, one fetch request is made per page after the first,
and number_of_rows_read ends up as the total row count of all pages. -/
theorem fetch_result_pages_budget_zero (validate includeDataColumn : Bool)
    (st : PartitionOpState) (page : List Row) (rest : List (List Row))
    (h0 : st.fullscan_stats.read_pages = 0) :
    (fetch_result_pages .fullPartitionReversedOrder validate includeDataColumn st (page :: rest)).2.finishedEvent = true
    ∧ (fetch_result_pages .fullPartitionReversedOrder validate includeDataColumn st (page :: rest)).2.fetchRequests
        = rest.length
    ∧ (fetch_result_pages .fullPartitionReversedOrder validate includeDataColumn st (page :: rest)).1.fullscan_stats.number_of_rows_read
        = ((page :: rest).map List.length).sum := by
  obtain ⟨i1, i2, i3⟩ := drivePages_budget_zero validate includeDataColumn (page :: rest)
    (resetRowsRead st)
    { maxReadPages := st.fullscan_stats.read_pages,
      currentReadPages := 0, finishedEvent := false, fetchRequests := 0 }
    (by simpa using h0) rfl (by simp)
  refine ⟨?_, ?_, ?_⟩ <;> simp only [fetch_result_pages]
  · exact i1
  · rw [i2]; simp
  · rw [i3]; simp [resetRowsRead]

/-- Two lists of lines are equal exactly when they agree position by
position. -/
theorem lines_eq_of_pointwise : ∀ (a b : List String), (∀ i, a.get? i = b.get? i) → a = b := by
  intro a
  induction a with
  | nil =>
      intro b hp
      cases b with
      | nil => rfl
      | cons y ys => have := hp 0; simp at this
  | cons x xs ih =>
      intro b hp
      cases b with
      | nil => have := hp 0; simp at this
      | cons y ys =>
          have h0 := hp 0
          simp at h0
          have ht : xs = ys := ih ys (fun i => by simpa using hp (i + 1))
          rw [h0, ht]

/-! Claim theorems. -/

/-- C2 counterexample: with page budget 0 and three available pages, the
handler fetches all three pages (two next-page requests, not zero) and
number_of_rows_read ends at 3, the total row count, not at 1, the row count of
the first page. -/
theorem c2_budget_zero_fetches_all_pages_cex :
    (fetch_result_pages .fullPartitionReversedOrder false false initPartitionState
        [[rowA], [rowA], [rowA]]).2.fetchRequests = 2
    ∧ ¬ (fetch_result_pages .fullPartitionReversedOrder false false initPartitionState
        [[rowA], [rowA], [rowA]]).2.fetchRequests = 0
    ∧ (fetch_result_pages .fullPartitionReversedOrder false false initPartitionState
        [[rowA], [rowA], [rowA]]).1.fullscan_stats.number_of_rows_read = 3
    ∧ ¬ (fetch_result_pages .fullPartitionReversedOrder false false initPartitionState
        [[rowA], [rowA], [rowA]]).1.fullscan_stats.number_of_rows_read = 1 := by
  decide

/-- C2 amended: with page budget 0 the budget is disabled rather than limited
to one page: every available page is fetched and consumed, completion is
signalled, and number_of_rows_read equals the total row count of all delivered
pages. -/
theorem c2_budget_zero_reads_all_rows (validate includeDataColumn : Bool)
    (page : List Row) (rest : List (List Row)) (st : PartitionOpState) :
    (fetch_result_pages .fullPartitionReversedOrder validate includeDataColumn
        { st with fullscan_stats := { st.fullscan_stats with read_pages := 0 } }
        (page :: rest)).2.finishedEvent = true
    ∧ (fetch_result_pages .fullPartitionReversedOrder validate includeDataColumn
        { st with fullscan_stats := { st.fullscan_stats with read_pages := 0 } }
        (page :: rest)).2.fetchRequests = rest.length
    ∧ (fetch_result_pages .fullPartitionReversedOrder validate includeDataColumn
        { st with fullscan_stats := { st.fullscan_stats with read_pages := 0 } }
        (page :: rest)).1.fullscan_stats.number_of_rows_read
        = ((page :: rest).map List.length).sum := by
  exact fetch_result_pages_budget_zero validate includeDataColumn
    { st with fullscan_stats := { st.fullscan_stats with read_pages := 0 } }
    page rest (by simp)

/-- C3 counterexample: with page budget B = 0 and four available pages the
handler issues three fetch-next-page requests, exceeding the claimed bound of
B + 1 = 1. -/
theorem c3_budget_zero_exceeds_bound_cex :
    ¬ (fetch_result_pages .fullPartitionReversedOrder false false initPartitionState
        [[rowA], [rowA], [rowA], [rowA]]).2.fetchRequests ≤ 0 + 1 := by
  decide

/-- C3 amended: for every positive page budget B + 1, a single execution
issues at most (B + 1) + 1 fetch-next-page requests; for budget 0 the bound
fails because the budget is disabled (see the counterexample). -/
theorem c3_fetch_requests_bounded (kind : ScanEventKind) (validate includeDataColumn : Bool)
    (B : Nat) (pages : List (List Row)) (st : PartitionOpState) :
    (fetch_result_pages kind validate includeDataColumn
        { st with fullscan_stats := { st.fullscan_stats with read_pages := B + 1 } }
        pages).2.fetchRequests ≤ (B + 1) + 1 := by
  have := fetch_result_pages_fetch_bound kind validate includeDataColumn
    { st with fullscan_stats := { st.fullscan_stats with read_pages := B + 1 } }
    pages (by simp)
  simpa using this

/-- C8: a failure whose message is exactly the ERROR_SUBSTRINGS entry
describing a connection marked down, with no nemesis running, is reported with
severity ERROR, not WARNING: run_scan_event lower-cases the message before the
substring check while the stored pattern keeps its capital H, so the pattern
can never match. -/
theorem c8_marked_down_without_nemesis_is_error :
    severityOf (run_scan_event .fullScan false false (Except.ok ())
        (Except.error "Host has been marked down or removed") none 1
        "SELECT * from ks.t1" initPartitionState)
      = some Severity.ERROR := by
  decide

/-- C9 counterexample: number_of_rows_read is not cumulative: a partition
scan starting from a state where five rows have already been counted resets
the counter, ending at 1 after a one-row page, a strict decrease. -/
theorem c9_rows_read_counter_decreases_cex :
    (fetch_result_pages .fullPartitionReversedOrder false false
        { fullscan_stats := { number_of_rows_read := 5 } } [[rowA]]).1.fullscan_stats.number_of_rows_read
      < ({ fullscan_stats := { number_of_rows_read := 5 } } : PartitionOpState).fullscan_stats.number_of_rows_read := by
  decide

/-- C9 amended: the genuinely cumulative counters scans_counter and
time_elapsed never decrease across a completed scan event (scans_counter grows
by exactly one); number_of_rows_read is reset at the start of each partition
page fetch and read_pages is a per-operation budget, so neither is monotone. -/
theorem c9_scans_counter_time_elapsed_monotone (kind : ScanEventKind)
    (validate includeDataColumn : Bool) (future : Except String (List (List Row)))
    (runningNemesis : Option String) (duration : Nat) (cmd : String)
    (st : PartitionOpState) :
    ∃ stat sev st1,
      run_scan_event kind validate includeDataColumn (Except.ok ()) future
          runningNemesis duration cmd st
        = Except.ok (stat, sev, st1)
      ∧ st.fullscan_stats.scans_counter ≤ st1.fullscan_stats.scans_counter
      ∧ st.fullscan_stats.time_elapsed ≤ st1.fullscan_stats.time_elapsed
      ∧ st1.fullscan_stats.scans_counter = st.fullscan_stats.scans_counter + 1 := by
  obtain ⟨stat, sev, st1, heq, _, hcnt, htime, _⟩ :=
    run_scan_event_ok kind validate includeDataColumn future runningNemesis duration cmd st
  exact ⟨stat, sev, st1, heq, by omega, by omega, hcnt⟩

/-- C10 counterexample: when entering cql_connection_patient fails, the
exception propagates out of run_scan_event and no operation record is
produced. -/
theorem c10_connection_failure_propagates_cex :
    run_scan_event .fullScan false false (Except.error "NoHostAvailable")
        (Except.ok []) none 1 "SELECT * from ks.t1" initPartitionState
      = Except.error "NoHostAvailable" := by
  rfl

/-- C10 amended: once the CQL session is open, every invocation of
run_scan_event appends exactly one FullScanOperationStat record to the stats
log and returns it, with duration set and success finalized as the emptiness
of its exception list; an exception raised during query execution or page
fetching is caught and recorded as the single entry of that list. -/
theorem c10_session_ok_appends_exactly_one (kind : ScanEventKind)
    (validate includeDataColumn : Bool) (future : Except String (List (List Row)))
    (runningNemesis : Option String) (duration : Nat) (cmd : String)
    (st : PartitionOpState) :
    ∃ stat sev st1,
      run_scan_event kind validate includeDataColumn (Except.ok ()) future
          runningNemesis duration cmd st
        = Except.ok (stat, sev, st1)
      ∧ st1.fullscan_stats.stats = st.fullscan_stats.stats ++ [stat]
      ∧ stat.duration = some duration
      ∧ stat.success = some stat.exceptions.isEmpty
      ∧ stat.exceptions = (match future with | Except.ok _ => [] | Except.error e => [e]) := by
  obtain ⟨stat, sev, st1, heq, happ, _, _, hdur, hsucc, hexc⟩ :=
    run_scan_event_ok kind validate includeDataColumn future runningNemesis duration cmd st
  exact ⟨stat, sev, st1, heq, happ, hdur, hsucc, hexc⟩

/-- C4: the comparison verdict is true exactly when the reordered normal-query
lines (reversed, then truncated to the LIMIT applied by the reversed query
when one was used) agree with the reversed-query lines position by position;
by construction the reversal is applied to the normal-query output only. -/
theorem c4_compare_reverses_normal_and_matches_pointwise (limit : Option Nat)
    (normalLines reversedLines : List String) :
    compare_output_files limit normalLines reversedLines = true
      ↔ ∀ i, (reorderedNormalLines limit normalLines).get? i = reversedLines.get? i := by
  unfold compare_output_files diffReportsEqual
  rw [beq_iff_eq]
  constructor
  · intro h i; rw [h]
  · intro h; exact lines_eq_of_pointwise _ _ h

/-- C1: a validated partition scan in which both queries raise no exception
and the forward/reverse comparison matches still finalizes its combined record
with success = false, because the two (empty) per-query exception lists are
appended as elements, leaving a two-element exceptions list that is never
empty. -/
theorem c1_combined_success_always_false :
    Option.map (fun c => (c.success, c.exceptions))
        (combinedStatOf (run_scan_operation_partition true false
          (some ("nq", "rq", none))
          (Except.ok ()) (Except.ok [[rowB]]) (Except.ok ()) (Except.ok [[rowB]])
          none 1 1 initPartitionState))
      = some (some false, [[], []]) := by
  decide

/-- C7 counterexample: one completed reverse-order partition scan with data
validation enabled appends two records to the statistics log (one per executed
query), not exactly one. -/
theorem c7_validated_scan_appends_two_records_cex :
    Option.map List.length (statsLogOf (run_scan_operation_partition true false
        (some ("q1", "q2", none))
        (Except.ok ()) (Except.ok [[rowC]]) (Except.ok ()) (Except.ok [[rowC]])
        none 1 1 initPartitionState))
      = some 2
    ∧ ¬ Option.map List.length (statsLogOf (run_scan_operation_partition true false
        (some ("q1", "q2", none))
        (Except.ok ()) (Except.ok [[rowC]]) (Except.ok ()) (Except.ok [[rowC]])
        none 1 1 initPartitionState))
      = some 1 := by
  decide

/-- C7 amended: each run_scan_event invocation appends exactly one record, so
a completed reverse-order partition scan with data validation enabled appends
exactly two records, one for the reversed query and one for the normal query,
while its combined record is returned but never appended to the log. -/
theorem c7_each_scan_event_appends_one_record (includeDataColumn : Bool)
    (normalQuery reversedQuery : String) (lim : Option Nat)
    (futureRev futureNorm : Except String (List (List Row)))
    (runningNemesis : Option String) (durRev durNorm : Nat) (st : PartitionOpState) :
    ∃ stFinal combined revStat regStat,
      run_scan_operation_partition true includeDataColumn
          (some (normalQuery, reversedQuery, lim))
          (Except.ok ()) futureRev (Except.ok ()) futureNorm
          runningNemesis durRev durNorm st
        = Except.ok (stFinal, some combined)
      ∧ stFinal.fullscan_stats.stats = st.fullscan_stats.stats ++ [revStat, regStat] := by
  obtain ⟨revStat, sevR, st1, heqR, hstR, _⟩ :=
    run_scan_event_ok .fullPartitionReversedOrder true includeDataColumn futureRev
      runningNemesis durRev reversedQuery (setLimit lim st)
  obtain ⟨regStat, sevN, st2, heqN, hstN, _⟩ :=
    run_scan_event_ok .fullPartition true includeDataColumn futureNorm
      runningNemesis durNorm normalQuery st1
  simp only [run_scan_operation_partition, heqR, heqN]
  refine ⟨(compare_output_files_state st2).2, _, revStat, regStat, rfl, ?_⟩
  simp only [compare_output_files_state]
  rw [hstN, hstR]
  simp [setLimit]

/-- C5: for a table whose natural clustering order is asc, the generated
reversed statement orders by ck asc as well (reversed_order is fixed in
init from the initial empty clustering order and never recomputed after the
real order is fetched), while the opposite of the natural order would be
desc. -/
theorem c5_reversed_order_equals_natural_order :
    reversedOrderOf "asc" = "desc"
    ∧ run_scan_operation_build exampleParams "asc" [5] exampleSeeded
        { addLimit := false, limitValue := 1 }
      = some ("select pk,ck from ks.t1 where pk = 5 ",
              "select pk,ck from ks.t1 where pk = 5 order by ck asc ", none) := by
  decide

/-- C6: two runs with identical seeded draws but different module-level random
draws (the LIMIT coin flip) produce different statements, so query
construction is not determined by the seeded generator alone. -/
theorem c6_statements_depend_on_global_random :
    randomly_form_cql_statement exampleParams initialReversedOrder [5] exampleSeeded
        { addLimit := false, limitValue := 7 }
      ≠ randomly_form_cql_statement exampleParams initialReversedOrder [5] exampleSeeded
        { addLimit := true, limitValue := 7 } := by
  decide
